import Mathlib

/-!
Shallow embedding of the Collishi collision library (src/Collisions.h).

All arithmetic in the source is over `float` using only addition,
subtraction, multiplication and comparisons (no division anywhere); we
embed the values as exact rationals `ℚ`, so every predicate below is the
exact-arithmetic semantics of the corresponding C++ `constexpr` function,
with the same control flow.
-/

namespace Collishi

/-- Embedding of `constexpr_abs`: branch-based absolute value. -/
def constexpr_abs (value : ℚ) : ℚ :=
  if value < 0 then -value else value

/-- Embedding of `fraction_less_than_zero`: true iff nominator/denominator
is negative, decided by sign comparison without dividing. -/
def fraction_less_than_zero (nominator denominator : ℚ) : Bool :=
  if nominator = 0 then false
  else if (decide (nominator < 0)) != (decide (denominator < 0)) then true
  else false

/-- Embedding of `fraction_between_zero_and_one`. -/
def fraction_between_zero_and_one (nominator denominator : ℚ) : Bool :=
  if fraction_less_than_zero nominator denominator then false
  else if constexpr_abs nominator > constexpr_abs denominator then false
  else true

/-- Embedding of `between`: `value` lies in the closed interval spanned
by the two borders in either order. -/
def between (value border_1 border_2 : ℚ) : Bool :=
  if value < min border_1 border_2 then false
  else if value > max border_1 border_2 then false
  else true

/-- Minimum of a value list (the source passes nonempty initializer
lists to `std::minmax`; the `[]` case is never reached). -/
def listMin : List ℚ → ℚ
  | [] => 0
  | x :: xs => xs.foldl min x

/-- Maximum of a value list. -/
def listMax : List ℚ → ℚ
  | [] => 0
  | x :: xs => xs.foldl max x

/-- Embedding of `overlap`: the closed intervals spanned by the min/max
of the two value sets intersect. -/
def overlap (interval_1 interval_2 : List ℚ) : Bool :=
  if listMax interval_2 < listMin interval_1 then false
  else if listMax interval_1 < listMin interval_2 then false
  else true

/-- Embedding of `sign_square`: `x*x` with the sign of `x` preserved. -/
def sign_square (x : ℚ) : ℚ :=
  if x < 0 then -x * x else x * x

/-- Embedding of `collision_point_point`: exact coordinate equality. -/
def collision_point_point (x1 y1 x2 y2 : ℚ) : Bool :=
  decide (x1 = x2) && decide (y1 = y2)

/-- Embedding of `collision_point_line`. -/
def collision_point_line (x1 y1 x2 y2 dx2 dy2 : ℚ) : Bool :=
  let dx12 := x1 - x2
  let dy12 := y1 - y2
  if dx12 * dy2 ≠ dy12 * dx2 then false
  else
    let projection := dx12 * dx2 + dy12 * dy2
    if !between projection 0 (dx2 * dx2 + dy2 * dy2) then false
    else true

/-- Embedding of `collision_point_circle`. -/
def collision_point_circle (x1 y1 x2 y2 r2 : ℚ) : Bool :=
  let dx := x1 - x2
  let dy := y1 - y2
  if dx * dx + dy * dy > r2 * r2 then false
  else true

/-- Embedding of `collision_point_box`. -/
def collision_point_box (x1 y1 x2 y2 w2 h2 : ℚ) : Bool :=
  if x1 < x2 then false
  else if y1 < y2 then false
  else if x2 + w2 < x1 then false
  else if y2 + h2 < y1 then false
  else true

/-- Embedding of `collision_point_triangle`. -/
def collision_point_triangle (x1 y1 x2 y2 sxa2 sya2 sxb2 syb2 : ℚ) : Bool :=
  let dx12 := x1 - x2
  let dy12 := y1 - y2
  let nominator_u := dx12 * syb2 - dy12 * sxb2
  let denominator_u := sxa2 * syb2 - sxb2 * sya2
  if !fraction_between_zero_and_one nominator_u denominator_u then false
  else
    let nominator_v := dx12 * sya2 - dy12 * sxa2
    if !fraction_between_zero_and_one nominator_v (-denominator_u) then false
    else
      let nominator_u_v := nominator_u - nominator_v
      if !fraction_between_zero_and_one nominator_u_v denominator_u then false
      else true

/-- Embedding of `collision_line_line`.  The C++ body falls through to
the SAT checks when the parallel branch does not return, which this
if-structure reproduces. -/
def collision_line_line (x1 y1 dx1 dy1 x2 y2 dx2 dy2 : ℚ) : Bool :=
  let cross_term := dx2 * dy1 - dy2 * dx1
  if decide (cross_term = 0) &&
      (collision_point_line x1 y1 x2 y2 dx2 dy2 ||
       collision_point_line x2 y2 x1 y1 dx1 dy1) then true
  else
    let y21 := y2 - y1
    let x21 := x2 - x1
    let projection_2_on_n1 := y21 * dx1 - x21 * dy1
    if (decide (projection_2_on_n1 < 0)) ==
        (decide (projection_2_on_n1 < cross_term)) then false
    else
      let projection_1_on_n2 := x21 * dy2 - y21 * dx2
      if (decide (projection_1_on_n2 < 0)) ==
          (decide (projection_1_on_n2 < -cross_term)) then false
      else true

/-- Embedding of `collision_line_circle`. -/
def collision_line_circle (x1 y1 dx1 dy1 x2 y2 r2 : ℚ) : Bool :=
  let x21 := x2 - x1
  let y21 := y2 - y1
  let r2_squared := r2 * r2
  let proj_circle_normal := y21 * dx1 - x21 * dy1
  let proj_circle_normal_max := r2_squared * (dx1 * dx1 + dy1 * dy1)
  if !between (sign_square proj_circle_normal)
      (-proj_circle_normal_max) proj_circle_normal_max then false
  else
    let x2d1 := x21 - dx1
    let y2d1 := y21 - dy1
    let distance_1_2 := x21 * x21 + y21 * y21
    let distance_d_2 := x2d1 * x2d1 + y2d1 * y2d1
    if distance_1_2 < distance_d_2 then
      let p1 := sign_square distance_1_2
      let p2 := sign_square (distance_1_2 - dx1 * x21 - dy1 * y21)
      let proj_r2_squared := r2_squared * (x21 * x21 + y21 * y21)
      if !overlap [p1, p2] [-proj_r2_squared, proj_r2_squared] then false
      else true
    else
      let p1 := sign_square distance_d_2
      let p2 := sign_square (distance_1_2 - dx1 * x21 - dy1 * y21)
      let proj_r2_squared := r2_squared * (x2d1 * x2d1 + y2d1 * y2d1)
      if !overlap [p1, p2] [-proj_r2_squared, proj_r2_squared] then false
      else true

/-- Embedding of `collision_line_box`. -/
def collision_line_box (x1 y1 dx1 dy1 x2 y2 w2 h2 : ℚ) : Bool :=
  if collision_point_box x1 y1 x2 y2 w2 h2 then true
  else if collision_point_box (x1 + dx1) (y1 + dy1) x2 y2 w2 h2 then true
  else
    let nominator_x_neg := x2 - x1
    let nominator_x_pos := x2 + w2 - x1
    let nominator_y_neg := y2 - y1
    let nominator_y_pos := y2 + h2 - y1
    let nom_x_neg_dy := nominator_x_neg * dy1
    let nom_x_pos_dy := nominator_x_pos * dy1
    let nom_y_neg_dx := nominator_y_neg * dx1
    let nom_y_pos_dx := nominator_y_pos * dx1
    if (nom_x_neg_dy ≥ nom_y_neg_dx && nom_x_neg_dy ≤ nom_y_pos_dx) &&
        fraction_between_zero_and_one nominator_x_neg dx1 then true
    else if (nom_x_pos_dy ≥ nom_y_neg_dx && nom_x_pos_dy ≤ nom_y_pos_dx) &&
        fraction_between_zero_and_one nominator_x_pos dx1 then true
    else if (nom_y_neg_dx ≥ nom_x_neg_dy && nom_y_neg_dx ≤ nom_x_pos_dy) &&
        fraction_between_zero_and_one nominator_y_neg dy1 then true
    else if (nom_y_pos_dx ≥ nom_x_neg_dy && nom_y_pos_dx ≤ nom_x_pos_dy) &&
        fraction_between_zero_and_one nominator_y_pos dy1 then true
    else false

/-- Embedding of `collision_line_triangle`. -/
def collision_line_triangle (x1 y1 dx1 dy1 x2 y2 sxa2 sya2 sxb2 syb2 : ℚ) : Bool :=
  let x21 := x2 - x1
  let y21 := y2 - y1
  let xa1 := x21 + sxa2
  let ya1 := y21 + sya2
  let xb1 := x21 + sxb2
  let yb1 := y21 + syb2
  let projection_2_on_n1 := y21 * dx1 - x21 * dy1
  let projection_a_on_n1 := ya1 * dx1 - xa1 * dy1
  let projection_b_on_n1 := yb1 * dx1 - xb1 * dy1
  if decide (projection_2_on_n1 < 0) && decide (projection_a_on_n1 < 0) &&
      decide (projection_b_on_n1 < 0) then false
  else
    let projection_1_on_na := x21 * sya2 - y21 * sxa2
    let projection_d_on_na := dy1 * sxa2 - dx1 * sya2
    let projection_b_on_na := syb2 * sxa2 - sxb2 * sya2
    if !overlap [projection_1_on_na, projection_1_on_na + projection_d_on_na]
        [0, projection_b_on_na] then false
    else
      let projection_1_on_nb := x21 * syb2 - y21 * sxb2
      let projection_d_on_nb := dy1 * sxb2 - dx1 * syb2
      let projection_a_on_nb := -projection_b_on_na
      if !overlap [projection_1_on_nb, projection_1_on_nb + projection_d_on_nb]
          [0, projection_a_on_nb] then false
      else
        let sxc2 := sxb2 - sxa2
        let syc2 := syb2 - sya2
        let projection_1_on_nc := xa1 * syc2 - ya1 * sxc2
        let projection_d_on_nc := dy1 * sxc2 - dx1 * syc2
        let projection_2_on_nc := projection_b_on_na
        if !overlap [projection_1_on_nc, projection_1_on_nc + projection_d_on_nc]
            [0, projection_2_on_nc] then false
        else true

/-- Embedding of `collision_circle_circle`. -/
def collision_circle_circle (x1 y1 r1 x2 y2 r2 : ℚ) : Bool :=
  let dx := x1 - x2
  let dy := y1 - y2
  let combined_radius := r1 + r2
  if dx * dx + dy * dy > combined_radius * combined_radius then false
  else true

/-- Embedding of `collision_circle_box`.  The mutable closest-vertex
search of the C++ is embedded as a chain of conditional state updates on
a `(min_dist, vx, vy)` triple. -/
def collision_circle_box (x1 y1 r1 x2 y2 w2 h2 : ℚ) : Bool :=
  let dxp := x2 + w2 - x1
  let dyp := y2 + h2 - y1
  let dxm := x2 - x1
  let dym := y2 - y1
  if !overlap [dxm, dxp] [-r1, r1] then false
  else if !overlap [dym, dyp] [-r1, r1] then false
  else
    let dxp2 := dxp * dxp
    let dxm2 := dxm * dxm
    let dyp2 := dyp * dyp
    let dym2 := dym * dym
    let dxp2yp2 := dxp2 + dyp2
    let dyp2xm2 := dyp2 + dxm2
    let dxm2ym2 := dxm2 + dym2
    let dym2xp2 := dym2 + dxp2
    let s0 : ℚ × ℚ × ℚ := (dxp2yp2, dxp, dyp)
    let s1 : ℚ × ℚ × ℚ := if dyp2xm2 < s0.1 then (dyp2xm2, dxm, dyp) else s0
    let s2 : ℚ × ℚ × ℚ := if dxm2ym2 < s1.1 then (dxm2ym2, dxm, dym) else s1
    let s3 : ℚ × ℚ × ℚ := if dym2xp2 < s2.1 then (dym2xp2, dxp, dym) else s2
    let vx := s3.2.1
    let vy := s3.2.2
    let proj_v_pp := sign_square (dxp * vx + dyp * vy)
    let proj_v_pm := sign_square (dxp * vx + dym * vy)
    let proj_v_mp := sign_square (dxm * vx + dyp * vy)
    let proj_v_mm := sign_square (dxm * vx + dym * vy)
    let proj_r1_squared := r1 * r1 * (vx * vx + vy * vy)
    if !overlap [proj_v_pp, proj_v_pm, proj_v_mp, proj_v_mm]
        [-proj_r1_squared, proj_r1_squared] then false
    else true

/-- Embedding of `collision_circle_triangle`, with the closest-vertex
search embedded as conditional state updates like in `collision_circle_box`. -/
def collision_circle_triangle (x1 y1 r1 x2 y2 sxa2 sya2 sxb2 syb2 : ℚ) : Bool :=
  let dx := x1 - x2
  let dy := y1 - y2
  let r1_squared := r1 * r1
  let cross_term := sxa2 * syb2 - sxb2 * sya2
  let proj_x1_a := dy * sxa2 - dx * sya2
  let proj_r1_a_squared := r1_squared * (sxa2 * sxa2 + sya2 * sya2)
  if !overlap [sign_square (-proj_x1_a), sign_square (cross_term - proj_x1_a)]
      [-proj_r1_a_squared, proj_r1_a_squared] then false
  else
    let proj_x1_b := dy * sxb2 - dx * syb2
    let proj_r1_b_squared := r1_squared * (sxb2 * sxb2 + syb2 * syb2)
    if !overlap [sign_square (-proj_x1_b), sign_square (-cross_term - proj_x1_b)]
        [-proj_r1_b_squared, proj_r1_b_squared] then false
    else
      let sxc2 := sxb2 - sxa2
      let syc2 := syb2 - sya2
      let proj_x1_c := dy * (sxb2 - sxa2) - dx * (syb2 - sya2)
      let proj_r1_c_squared := r1_squared * (sxc2 * sxc2 + syc2 * syc2)
      if !overlap [sign_square (-proj_x1_c), sign_square proj_x1_c]
          [-proj_r1_c_squared, proj_r1_c_squared] then false
      else
        let dxa := dx - sxa2
        let dya := dy - sya2
        let dxb := dx - sxb2
        let dyb := dy - syb2
        let da_norm := dxa * dxa + dya * dya
        let db_norm := dxb * dxb + dyb * dyb
        let t0 : ℚ × ℚ × ℚ := (dx * dx + dy * dy, -dx, -dy)
        let t1 : ℚ × ℚ × ℚ := if da_norm < t0.1 then (da_norm, -dxa, -dya) else t0
        let t2 : ℚ × ℚ × ℚ := if db_norm < t1.1 then (db_norm, -dxb, -dyb) else t1
        let min_dist := t2.1
        let vx := t2.2.1
        let vy := t2.2.2
        let proj_2_0_v := sign_square (-dx * vx - dy * vy)
        let proj_2_a_v := sign_square (-dxa * vx - dya * vy)
        let proj_2_b_v := sign_square (-dxb * vx - dyb * vy)
        let proj_r_v_squared := r1_squared * min_dist
        if !overlap [proj_2_0_v, proj_2_a_v, proj_2_b_v]
            [-proj_r_v_squared, proj_r_v_squared] then false
        else true

/-- Embedding of `collision_box_box`. -/
def collision_box_box (x1 y1 w1 h1 x2 y2 w2 h2 : ℚ) : Bool :=
  if x1 + w1 < x2 then false
  else if y1 + h1 < y2 then false
  else if x2 + w2 < x1 then false
  else if y2 + h2 < y1 then false
  else true

/-! ### Helper lemmas about the numeric primitives -/

lemma constexpr_abs_eq_abs (x : ℚ) : constexpr_abs x = |x| := by
  rw [constexpr_abs]
  split_ifs with h
  · exact (abs_of_neg h).symm
  · exact (abs_of_nonneg (not_lt.1 h)).symm

lemma constexpr_abs_nonneg (x : ℚ) : 0 ≤ constexpr_abs x := by
  rw [constexpr_abs_eq_abs]; exact abs_nonneg x

lemma fraction_between_zero_and_one_zero_nom (d : ℚ) :
    fraction_between_zero_and_one 0 d = true := by
  have h1 : fraction_less_than_zero 0 d = false := by
    simp [fraction_less_than_zero]
  have h2 : constexpr_abs (0 : ℚ) = 0 := by simp [constexpr_abs]
  simp [fraction_between_zero_and_one, h1, h2, not_lt.2 (constexpr_abs_nonneg d)]

/-! ### Theorems for the claims -/

/-- Claim C5: `collision_point_point` is reflexive, and it returns true
exactly when the two coordinate pairs are equal (exact equality, no
tolerance). -/
theorem collision_point_point_spec (x1 y1 x2 y2 : ℚ) :
    collision_point_point x1 y1 x1 y1 = true ∧
    (collision_point_point x1 y1 x2 y2 = true ↔ x1 = x2 ∧ y1 = y2) := by
  constructor
  · simp [collision_point_point]
  · simp [collision_point_point]

/-- Claim C8: the triangle's base vertex is always classified as inside
the triangle, for every pair of edge vectors, degenerate ones included. -/
theorem collision_point_triangle_base_vertex (x2 y2 sxa2 sya2 sxb2 syb2 : ℚ) :
    collision_point_triangle x2 y2 x2 y2 sxa2 sya2 sxb2 syb2 = true := by
  simp [collision_point_triangle, fraction_between_zero_and_one_zero_nom]

/-- Claim C9: a box with zero extents behaves exactly like the point at
its origin. -/
theorem collision_box_box_zero_extents (x1 y1 x2 y2 w2 h2 : ℚ) :
    collision_box_box x1 y1 0 0 x2 y2 w2 h2 =
      collision_point_box x1 y1 x2 y2 w2 h2 := by
  simp only [collision_box_box, collision_point_box, add_zero]

/-- Claim C1, counterexample: with a zero displacement vector,
`collision_point_line` accepts the point `(1,0)` against origin `(0,0)`
while `collision_point_point` rejects it, so the claimed equality with
`collision_point_point` fails. -/
theorem collision_point_line_zero_disp_cex :
    collision_point_line 1 0 0 0 0 0 ≠ collision_point_point 1 0 0 0 := by
  have h1 : collision_point_line 1 0 0 0 0 0 = true := by
    norm_num [collision_point_line, between]
  have h2 : collision_point_point 1 0 0 0 = false := by
    norm_num [collision_point_point]
  rw [h1, h2]; simp

/-- Claim C1, amended: with a zero displacement vector,
`collision_point_line` returns true for every point and every origin (the
cross-product test and the projection test both degenerate to `0`), so it
agrees with `collision_point_point` only when the point coincides with
the origin. -/
theorem collision_point_line_zero_disp (x1 y1 x2 y2 : ℚ) :
    collision_point_line x1 y1 x2 y2 0 0 = true := by
  simp [collision_point_line, between]

/-- Claim C4, counterexample: a box with negative extents does not
collide with itself, refuting the claim for extents of arbitrary sign. -/
theorem collision_box_box_self_cex :
    collision_box_box 0 0 (-1) 0 0 0 (-1) 0 = false := by
  norm_num [collision_box_box]

/-- Claim C4, amended: every box with nonnegative extents collides with
itself. -/
theorem collision_box_box_self (x y w h : ℚ) (hw : 0 ≤ w) (hh : 0 ≤ h) :
    collision_box_box x y w h x y w h = true := by
  rw [collision_box_box,
    if_neg (by linarith : ¬x + w < x), if_neg (by linarith : ¬y + h < y),
    if_neg (by linarith : ¬x + w < x), if_neg (by linarith : ¬y + h < y)]

/-- Witness for `collision_box_box_self` at the box `(1,2,3,4)`. -/
theorem collision_box_box_self_witness :
    collision_box_box 1 2 3 4 1 2 3 4 = true :=
  collision_box_box_self 1 2 3 4 (by norm_num) (by norm_num)

/-- Claim C6: if either endpoint of the segment lies in the box
according to `collision_point_box`, then `collision_line_box` returns
true. -/
theorem collision_line_box_endpoint (x1 y1 dx1 dy1 x2 y2 w2 h2 : ℚ)
    (h : collision_point_box x1 y1 x2 y2 w2 h2 = true ∨
         collision_point_box (x1 + dx1) (y1 + dy1) x2 y2 w2 h2 = true) :
    collision_line_box x1 y1 dx1 dy1 x2 y2 w2 h2 = true := by
  rcases h with h | h
  · simp [collision_line_box, h]
  · cases hb : collision_point_box x1 y1 x2 y2 w2 h2 <;>
      simp [collision_line_box, hb, h]

/-- Witness for `collision_line_box_endpoint`: the segment from `(0,0)`
to `(1,1)` starts inside the box `(0,0,2,2)`. -/
theorem collision_line_box_endpoint_witness :
    collision_line_box 0 0 1 1 0 0 2 2 = true :=
  collision_line_box_endpoint 0 0 1 1 0 0 2 2
    (Or.inl (by norm_num [collision_point_box]))

lemma fraction_less_than_zero_iff (n d : ℚ) (hd : d ≠ 0) :
    fraction_less_than_zero n d = true ↔ n / d < 0 := by
  rw [fraction_less_than_zero]
  split_ifs with h0 hs
  · subst h0; simp
  · simp only [bne_iff_ne, ne_eq, decide_eq_decide] at hs
    refine iff_of_true rfl ?_
    rw [div_neg_iff]
    by_cases hn : n < 0
    · have hdp : 0 < d := by
        rcases hd.lt_or_lt with hdl | hdg
        · exact absurd (iff_of_true hn hdl) hs
        · exact hdg
      exact Or.inr ⟨hn, hdp⟩
    · have hnp : 0 < n := (not_lt.1 hn).lt_of_ne (Ne.symm h0)
      have hdl : d < 0 := by
        rcases hd.lt_or_lt with hdl | hdg
        · exact hdl
        · exact absurd (iff_of_false hn (not_lt.2 hdg.le)) hs
      exact Or.inl ⟨hnp, hdl⟩
  · simp only [bne_iff_ne, ne_eq, decide_eq_decide, not_not] at hs
    refine iff_of_false (by simp) ?_
    rw [not_lt, div_nonneg_iff]
    rcases hd.lt_or_lt with hdl | hdg
    · exact Or.inr ⟨(hs.2 hdl).le, hdl.le⟩
    · have hn : ¬n < 0 := fun hnl => absurd (hs.1 hnl) (not_lt.2 hdg.le)
      exact Or.inl ⟨not_lt.1 hn, hdg.le⟩

/-- Claim C3: for every nonzero denominator,
`fraction_between_zero_and_one n d` decides `0 ≤ n/d ≤ 1` exactly; and
the all-zero call `fraction_between_zero_and_one 0 0` still yields a
defined boolean outcome (namely `true`). -/
theorem fraction_between_zero_and_one_spec (n d : ℚ) :
    (d ≠ 0 →
      (fraction_between_zero_and_one n d = true ↔ 0 ≤ n / d ∧ n / d ≤ 1)) ∧
    fraction_between_zero_and_one 0 0 = true := by
  refine ⟨fun hd => ?_, fraction_between_zero_and_one_zero_nom 0⟩
  rw [fraction_between_zero_and_one]
  split_ifs with hflz habs
  · simp only [Bool.false_eq_true, false_iff]
    rintro ⟨h1, _⟩
    exact absurd ((fraction_less_than_zero_iff n d hd).1 hflz) (not_lt.2 h1)
  · simp only [Bool.false_eq_true, false_iff]
    rintro ⟨h1, h2⟩
    rw [constexpr_abs_eq_abs, constexpr_abs_eq_abs] at habs
    have hd0 : 0 < |d| := abs_pos.2 hd
    have hgt : 1 < |n| / |d| := (one_lt_div hd0).2 habs
    rw [← abs_div] at hgt
    rw [abs_of_nonneg h1] at hgt
    linarith
  · have h0 : 0 ≤ n / d :=
      not_lt.1 (fun hlt => hflz ((fraction_less_than_zero_iff n d hd).2 hlt))
    have habs' : |n| ≤ |d| := by
      rw [constexpr_abs_eq_abs, constexpr_abs_eq_abs] at habs
      exact not_lt.1 habs
    have h1 : n / d ≤ 1 := by
      have hd0 : 0 < |d| := abs_pos.2 hd
      have hle : |n / d| ≤ 1 := by
        rw [abs_div]; exact (div_le_one hd0).2 habs'
      calc n / d ≤ |n / d| := le_abs_self _
        _ ≤ 1 := hle
    exact ⟨fun _ => ⟨h0, h1⟩, fun _ => rfl⟩

/-- Witness for `fraction_between_zero_and_one_spec` at `n = 1, d = 3`. -/
theorem fraction_between_zero_and_one_spec_witness :
    fraction_between_zero_and_one 1 3 = true ↔
      0 ≤ (1 : ℚ) / 3 ∧ (1 : ℚ) / 3 ≤ 1 :=
  (fraction_between_zero_and_one_spec 1 3).1 (by norm_num)

lemma if_reject_comm (X Y : Bool) :
    (if X = true then false else if Y = true then false else true) =
      (if Y = true then false else if X = true then false else true) := by
  cases X <;> cases Y <;> simp

lemma collision_line_line_symm_aux (x1 y1 dx1 dy1 x2 y2 dx2 dy2 : ℚ) :
    collision_line_line x1 y1 dx1 dy1 x2 y2 dx2 dy2 =
      collision_line_line x2 y2 dx2 dy2 x1 y1 dx1 dy1 := by
  have hc : dx1 * dy2 - dy1 * dx2 = -(dx2 * dy1 - dy2 * dx1) := by ring
  have hp : (y1 - y2) * dx2 - (x1 - x2) * dy2 =
      (x2 - x1) * dy2 - (y2 - y1) * dx2 := by ring
  have hq : (x1 - x2) * dy1 - (y1 - y2) * dx1 =
      (y2 - y1) * dx1 - (x2 - x1) * dy1 := by ring
  simp only [collision_line_line, hc, hp, hq, neg_neg, neg_eq_zero]
  rw [Bool.or_comm]
  by_cases h : (decide (dx2 * dy1 - dy2 * dx1 = 0) &&
      (collision_point_line x2 y2 x1 y1 dx1 dy1 ||
       collision_point_line x1 y1 x2 y2 dx2 dy2)) = true
  · rw [if_pos h, if_pos h]
  · rw [if_neg h, if_neg h]
    exact if_reject_comm _ _

lemma collision_circle_circle_symm_aux (x1 y1 r1 x2 y2 r2 : ℚ) :
    collision_circle_circle x1 y1 r1 x2 y2 r2 =
      collision_circle_circle x2 y2 r2 x1 y1 r1 := by
  have h1 : (x2 - x1) * (x2 - x1) + (y2 - y1) * (y2 - y1) =
      (x1 - x2) * (x1 - x2) + (y1 - y2) * (y1 - y2) := by ring
  have h2 : (r2 + r1) * (r2 + r1) = (r1 + r2) * (r1 + r2) := by ring
  simp only [collision_circle_circle, h1, h2]

lemma collision_box_box_symm_aux (x1 y1 w1 h1 x2 y2 w2 h2 : ℚ) :
    collision_box_box x1 y1 w1 h1 x2 y2 w2 h2 =
      collision_box_box x2 y2 w2 h2 x1 y1 w1 h1 := by
  simp only [collision_box_box]
  split_ifs <;> rfl

/-- Claim C2: the three same-kind predicates (line/line, circle/circle,
box/box) are symmetric under consistently swapping the two shapes'
argument blocks. -/
theorem same_kind_predicates_symm :
    (∀ x1 y1 dx1 dy1 x2 y2 dx2 dy2 : ℚ,
      collision_line_line x1 y1 dx1 dy1 x2 y2 dx2 dy2 =
        collision_line_line x2 y2 dx2 dy2 x1 y1 dx1 dy1) ∧
    (∀ x1 y1 r1 x2 y2 r2 : ℚ,
      collision_circle_circle x1 y1 r1 x2 y2 r2 =
        collision_circle_circle x2 y2 r2 x1 y1 r1) ∧
    (∀ x1 y1 w1 h1 x2 y2 w2 h2 : ℚ,
      collision_box_box x1 y1 w1 h1 x2 y2 w2 h2 =
        collision_box_box x2 y2 w2 h2 x1 y1 w1 h1) :=
  ⟨collision_line_line_symm_aux, collision_circle_circle_symm_aux,
    collision_box_box_symm_aux⟩

lemma overlap_neg_pair (l : List ℚ) (r : ℚ) :
    overlap l [r, -r] = overlap l [-r, r] := by
  simp [overlap, listMin, listMax, min_comm, max_comm]

/-- Claim C10: `collision_point_circle` and `collision_circle_box` are
invariant under negating the circle's radius. -/
theorem radius_negation_invariant :
    (∀ x1 y1 x2 y2 r2 : ℚ,
      collision_point_circle x1 y1 x2 y2 r2 =
        collision_point_circle x1 y1 x2 y2 (-r2)) ∧
    (∀ x1 y1 r1 x2 y2 w2 h2 : ℚ,
      collision_circle_box x1 y1 r1 x2 y2 w2 h2 =
        collision_circle_box x1 y1 (-r1) x2 y2 w2 h2) := by
  constructor
  · intro x1 y1 x2 y2 r2
    simp only [collision_point_circle, neg_mul_neg]
  · intro x1 y1 r1 x2 y2 w2 h2
    simp only [collision_circle_box, neg_neg, neg_mul_neg, overlap_neg_pair]

/-- Claim C7: every embedded primitive and collision predicate of the
library is a total function: it yields a defined value on every
floating-point input, degenerate shapes included (the definitions above
also contain no division and no error branch). -/
theorem collishi_total :
    (∀ x : ℚ, ∃ y, constexpr_abs x = y) ∧
    (∀ x : ℚ, ∃ y, sign_square x = y) ∧
    (∀ n d : ℚ, fraction_less_than_zero n d = false ∨
      fraction_less_than_zero n d = true) ∧
    (∀ n d : ℚ, fraction_between_zero_and_one n d = false ∨
      fraction_between_zero_and_one n d = true) ∧
    (∀ v b1 b2 : ℚ, between v b1 b2 = false ∨ between v b1 b2 = true) ∧
    (∀ l1 l2 : List ℚ, overlap l1 l2 = false ∨ overlap l1 l2 = true) ∧
    (∀ a b c d : ℚ, collision_point_point a b c d = false ∨
      collision_point_point a b c d = true) ∧
    (∀ a b c d e f : ℚ, collision_point_line a b c d e f = false ∨
      collision_point_line a b c d e f = true) ∧
    (∀ a b c d e : ℚ, collision_point_circle a b c d e = false ∨
      collision_point_circle a b c d e = true) ∧
    (∀ a b c d e f : ℚ, collision_point_box a b c d e f = false ∨
      collision_point_box a b c d e f = true) ∧
    (∀ a b c d e f g k : ℚ, collision_point_triangle a b c d e f g k = false ∨
      collision_point_triangle a b c d e f g k = true) ∧
    (∀ a b c d e f g k : ℚ, collision_line_line a b c d e f g k = false ∨
      collision_line_line a b c d e f g k = true) ∧
    (∀ a b c d e f g : ℚ, collision_line_circle a b c d e f g = false ∨
      collision_line_circle a b c d e f g = true) ∧
    (∀ a b c d e f g k : ℚ, collision_line_box a b c d e f g k = false ∨
      collision_line_box a b c d e f g k = true) ∧
    (∀ a b c d e f g k m n : ℚ,
      collision_line_triangle a b c d e f g k m n = false ∨
      collision_line_triangle a b c d e f g k m n = true) ∧
    (∀ a b c d e f : ℚ, collision_circle_circle a b c d e f = false ∨
      collision_circle_circle a b c d e f = true) ∧
    (∀ a b c d e f g : ℚ, collision_circle_box a b c d e f g = false ∨
      collision_circle_box a b c d e f g = true) ∧
    (∀ a b c d e f g k m : ℚ,
      collision_circle_triangle a b c d e f g k m = false ∨
      collision_circle_triangle a b c d e f g k m = true) ∧
    (∀ a b c d e f g k : ℚ, collision_box_box a b c d e f g k = false ∨
      collision_box_box a b c d e f g k = true) := by
  have hb : ∀ b : Bool, b = false ∨ b = true := by
    intro b; cases b
    · exact Or.inl rfl
    · exact Or.inr rfl
  exact ⟨fun x => ⟨_, rfl⟩, fun x => ⟨_, rfl⟩,
    fun n d => hb _, fun n d => hb _, fun v b1 b2 => hb _,
    fun l1 l2 => hb _, fun a b c d => hb _, fun a b c d e f => hb _,
    fun a b c d e => hb _, fun a b c d e f => hb _,
    fun a b c d e f g k => hb _, fun a b c d e f g k => hb _,
    fun a b c d e f g => hb _, fun a b c d e f g k => hb _,
    fun a b c d e f g k m n => hb _, fun a b c d e f => hb _,
    fun a b c d e f g => hb _, fun a b c d e f g k m => hb _,
    fun a b c d e f g k => hb _⟩

end Collishi
